import Mathlib

/-!
Verification of `main.py` (browser login bootstrapper + iframe readiness poller).

The script drives an external browser-automation library.  The embedding keeps
the script's own control flow exactly (loops, branch conditions, try/except
placement, state variables) and treats each call into the browser as an oracle
supplied by an environment record: a DOM lookup either raises, returns a falsy
handle, or returns a truthy handle (`Lookup`); an action either completes or
raises (`Bool`).  Clock reads (`Date.now`) and fixed sleeps are modelled as
total.  Stateful effects that the claims talk about (navigation, clicks,
cookie-file reads/writes, close calls, …) are recorded in an event trace.
-/

/-- Outcome of one DOM query as seen by the script: the call raised, returned a
falsy handle, or returned a truthy handle. -/
inductive Lookup where
  | err : Lookup
  | notFound : Lookup
  | found : Lookup
deriving DecidableEq

/-- Truthiness of a successful query result. -/
def Lookup.isFound : Lookup → Bool
  | .found => true
  | _ => false

/-- Bool test that one character list starts with another (needle first). -/
def charsStartWith : List Char → List Char → Bool
  | [], _ => true
  | _ :: _, [] => false
  | a :: as, b :: bs => a == b && charsStartWith as bs

/-- Substring containment on character lists (needle first), mirroring the
semantics of Python's `in` operator on strings. -/
def charsContain (needle : List Char) : List Char → Bool
  | [] => needle.isEmpty
  | c :: cs => charsStartWith needle (c :: cs) || charsContain needle cs

/-- `strContains hay needle` is Python's `needle in hay` for strings. -/
def strContains (hay needle : String) : Bool :=
  charsContain needle.data hay.data

/-- Split a character list at its first space: `none` when no space occurs,
otherwise the characters before it and all characters after it. -/
def splitFirstSpace : List Char → Option (List Char × List Char)
  | [] => none
  | c :: cs =>
    if c = ' ' then some ([], cs)
    else
      match splitFirstSpace cs with
      | none => none
      | some (a, b) => some (c :: a, b)

/-- Python's `s.split(' ', 1)`: at most one split, at the first space. -/
def pySplitOnce (s : String) : List String :=
  match splitFirstSpace s.data with
  | none => [s]
  | some (a, b) => [String.mk a, String.mk b]

/-- `main.py` line 132: `google_pw.split(' ', 1) if google_pw else []`. -/
def credsList (gp : String) : List String :=
  if gp = "" then [] else pySplitOnce gp

/-- `main.py` line 134: `credentials[0] if len(credentials) > 0 else None`. -/
def emailOf (gp : String) : Option String := (credsList gp)[0]?

/-- `main.py` line 135: `credentials[1] if len(credentials) > 1 else None`. -/
def passwordOf (gp : String) : Option String := (credsList gp)[1]?

/-- Python falsiness of an optional string: `None` and `""` are falsy. -/
def optFalsy : Option String → Bool
  | none => true
  | some s => s = ""

/-- `main.py` line 141: `if not email or not password`. -/
def credsBad (gp : String) : Bool :=
  optFalsy (emailOf gp) || optFalsy (passwordOf gp)

/-- `main.py` line 137: `os.environ.get("APP_URL", "https://idx.google.com/app-43646734")`. -/
def getAppUrl (v : Option String) : String :=
  v.getD "https://idx.google.com/app-43646734"

/-- `main.py` line 186: `"idx.google.com" in current_url and "signin" not in current_url`
(the login-state test applied after the cookie load). -/
def cookieCheckpoint (url : String) : Bool :=
  strContains url "idx.google.com" && !strContains url "signin"

/-- `main.py` line 336: the same test applied after interactive password login. -/
def loginCheckpoint (url : String) : Bool :=
  strContains url "idx.google.com" && !strContains url "signin"

/-- `main.py` line 362: the same test applied at final verification. -/
def finalCheckpoint (url : String) : Bool :=
  strContains url "idx.google.com" && !strContains url "signin"

/-- Modelled from the spec: `isAuthenticated(url)` is true iff `url` contains
the host marker `idx.google.com` and does not contain the sign-in marker
`signin`.  Stated from the spec's words so the three in-code checkpoints can be
compared against it. -/
def isAuthenticated (url : String) : Bool :=
  strContains url "idx.google.com" && !strContains url "signin"

/-! ## Readiness poller (`refresh_page_and_wait`, `main.py` lines 25-127) -/

/-- Oracle outcomes for the browser calls of one iteration of the poll loop.
`elapsedAfter` is the value of `Date.now() - start_time` read at the bottom of
the iteration (line 123). -/
structure IterEnv where
  /-- line 51: `page.frame_locator("#iframe-container iframe >> nth=0")`. -/
  webFrame : Lookup
  /-- line 53: `frame.get_by_text("Web", exact=True)`. -/
  webButton : Lookup
  /-- line 57: whether `web_button.click()` completes without raising. -/
  webClickOk : Bool
  /-- line 73: whether `page.frame_locator(starting_server_selector)` completes
  without raising (it sits inside the try of line 68 but outside the nested try
  of line 76, so a raise here skips the fallback scan as well). -/
  chainRootOk : Bool
  /-- line 77: the named inner iframe. -/
  innerFrame : Lookup
  /-- line 79: the iframe titled "Web". -/
  webTitleFrame : Lookup
  /-- line 81: `#previewFrame`. -/
  previewFrame : Lookup
  /-- line 83: `get_by_role("heading", name="Starting server")` on the nested path. -/
  nestedHeading : Lookup
  /-- line 101: `page.frames`; `none` when reading it raises, otherwise one
  heading lookup outcome (line 104) per attached frame. -/
  framesList : Option (List Lookup)
  /-- line 123: elapsed milliseconds reported at the end of the iteration. -/
  elapsedAfter : Nat

/-- Marker-1 block (`main.py` lines 48-64): when the web-button flag is still
false, look up the container frame and the "Web" text, then click; any raise is
caught at line 63 and leaves the flag false. -/
def marker1Step (e : IterEnv) (wb : Bool) : Bool :=
  if wb then true
  else
    match e.webFrame with
    | .err => false
    | .notFound => false
    | .found =>
      match e.webButton with
      | .err => false
      | .notFound => false
      | .found => e.webClickOk

/-- Whether the marker-1 block reaches the `web_button.click()` call of line 57. -/
def clickReached (e : IterEnv) (wb : Bool) : Bool :=
  !wb && e.webFrame.isFound && e.webButton.isFound

/-- Nested-iframe path (`main.py` lines 76-96): named iframe, then the iframe
titled "Web", then `#previewFrame`, then the "Starting server" heading.  A
raise at any level is caught at line 95; a falsy result stops the walk. -/
def nestedPathStep (e : IterEnv) : Bool :=
  match e.innerFrame with
  | .err => false
  | .notFound => false
  | .found =>
    match e.webTitleFrame with
    | .err => false
    | .notFound => false
    | .found =>
      match e.previewFrame with
      | .err => false
      | .notFound => false
      | .found =>
        match e.nestedHeading with
        | .err => false
        | .notFound => false
        | .found => true

/-- Fallback scan (`main.py` lines 101-110): walk every attached frame; a
truthy heading sets the flag and breaks, a raise or falsy heading continues. -/
def fallbackScan : List Lookup → Bool
  | [] => false
  | f :: fs =>
    match f with
    | .found => true
    | .notFound => fallbackScan fs
    | .err => fallbackScan fs

/-- Result of the fallback branch (lines 99-112) including the `page.frames`
read of line 101, whose raise is caught at line 111. -/
def fallbackFound (e : IterEnv) : Bool :=
  match e.framesList with
  | none => false
  | some fs => fallbackScan fs

/-- Marker-2 block (`main.py` lines 67-114): only runs when the web-button flag
is set and the starting-server flag is not; tries the nested-iframe path, then,
if the flag is still unset, the all-frames fallback scan. -/
def marker2Step (e : IterEnv) (wb ss : Bool) : Bool :=
  if wb && !ss then
    if e.chainRootOk then
      if nestedPathStep e then true
      else fallbackFound e
    else false
  else ss

/-- Observable record of one executed iteration of the poll loop. -/
structure IterRec where
  elapsedAtStart : Nat
  wbAtStart : Bool
  ssAtStart : Bool
  reloaded : Bool
  clickAttempted : Bool
  marker2Attempted : Bool
  wbAtEnd : Bool
  ssAtEnd : Bool
deriving DecidableEq

/-- One executed iteration of the loop body (`main.py` lines 36-119): reload
when not both flags are set (line 36), then the marker-1 block (lines 48-64),
then the marker-2 block (lines 67-114), recording the observable actions. -/
def pollIterRec (e : IterEnv) (elapsed : Nat) (wb ss : Bool) : IterRec :=
  { elapsedAtStart := elapsed
    wbAtStart := wb
    ssAtStart := ss
    reloaded := !(wb && ss)
    clickAttempted := clickReached e wb
    marker2Attempted := marker1Step e wb && !ss
    wbAtEnd := marker1Step e wb
    ssAtEnd := marker2Step e (marker1Step e wb) ss }

/-- The `while` loop of `main.py` lines 34-124.  `fuel` is the number of reload
attempts still allowed (`refresh_attempts - refresh_count`), so the guard
`refresh_count < refresh_attempts` is `0 < fuel`; `elapsed` is the current
`elapsed_time` in milliseconds and `budgetMs` is `total_wait_time * 1000`.
Each executed iteration runs the body, breaks out (line 119) once both flags
hold, and otherwise re-reads the elapsed clock (line 123) and loops. -/
def pollLoop (env : Nat → IterEnv) (budgetMs : Nat) :
    Nat → Nat → Bool → Bool → Bool × List IterRec
  | 0, _, wb, ss => (wb && ss, [])
  | fuel + 1, elapsed, wb, ss =>
    if elapsed < budgetMs then
      let r := pollIterRec (env 0) elapsed wb ss
      if r.wbAtEnd && r.ssAtEnd then (true, [r])
      else
        let rest := pollLoop (fun n => env (n + 1)) budgetMs fuel
          (env 0).elapsedAfter r.wbAtEnd r.ssAtEnd
        (rest.1, r :: rest.2)
    else (wb && ss, [])

/-- `refresh_page_and_wait(page, url, refresh_attempts, total_wait_time)`:
both flags start false, `elapsed_time` starts at 0 (line 28), and the function
returns `web_button_found and starting_server_found` (line 127), paired here
with the list of executed iterations. -/
def refresh_page_and_wait (env : Nat → IterEnv) (refresh_attempts total_wait : Nat) :
    Bool × List IterRec :=
  pollLoop env (total_wait * 1000) refresh_attempts 0 false false

/-! ## The `run` function (`main.py` lines 129-415)

The bootstrapper is embedded as a trace-producing function.  Events record the
externally observable steps the claims reason about; log prints other than the
credential guidance and the final status line are omitted (they carry no state).
-/

/-- Observable events of one run. -/
inductive Ev where
  /-- an `os.environ.get` read, by variable name (lines 131, 137). -/
  | envRead (name : String)
  /-- the operator guidance printed on missing credentials (lines 142-144). -/
  | guidance
  /-- a `page.goto(url, ...)` navigation. -/
  | nav (url : String)
  /-- any other browser/page action or query, by a short label. -/
  | browser (op : String)
  /-- opening the cookie file for reading (line 160). -/
  | cookieFileRead
  /-- opening the cookie file for writing (lines 343, 367). -/
  | cookieFileWrite
  /-- entry into `refresh_page_and_wait` (line 376). -/
  | pollStart
  /-- a `close()` attempt on "page", "context" or "browser" (lines 397-413). -/
  | closeAttempt (r : String)
  /-- the log print in the `except` of a failed close. -/
  | closeFailLog (r : String)
  /-- the final status print of line 415. -/
  | finalStatus
deriving DecidableEq

/-- Oracle environment for one run: the environment variables, the outcome of
every fallible browser call, the `page.url` values the script reads, and the
per-iteration oracles for the readiness poll. -/
structure Env where
  /-- value of `GOOGLE_PW` (line 131; `get` with default `""`). -/
  googlePw : String
  /-- value of `APP_URL` when set (line 137). -/
  appUrlVar : Option String
  /-- line 152: `playwright.firefox.launch` completes. -/
  launchOk : Bool
  /-- line 153: `browser.new_context()` completes. -/
  newContextOk : Bool
  /-- line 157: `cookies_path.exists()`. -/
  cookieFileExists : Bool
  /-- lines 160-161: open + `json.load` complete. -/
  cookieParseOk : Bool
  /-- line 162: `context.add_cookies` completes. -/
  addCookiesOk : Bool
  /-- line 169: `context.new_page()` completes. -/
  newPageOk : Bool
  /-- line 182: `page.url` after the first navigation attempt. -/
  urlAfterGoto1 : String
  /-- line 200: `page.url` at the start of the login flow. -/
  urlAtSigninCheck : String
  /-- line 207: the dom-content wait completes (a raise also skips line 208). -/
  waitDomLoginOk : Bool
  /-- line 215: the dom-content wait of the chooser probe completes (a raise
  lands in the handler of line 285 and skips the whole chooser block). -/
  waitDomChooseOk : Bool
  /-- line 217: `query_selector('text="Choose an account"')`. -/
  chooseAccount : Lookup
  /-- line 225: `page.get_by_text(email)`. -/
  emailAccount : Lookup
  /-- line 228: `email_account.click()` completes (a raise skips line 230). -/
  emailAccountClickOk : Bool
  /-- line 233: `query_selector` of the email div. -/
  emailDiv : Lookup
  /-- line 236: `email_div.click()` completes. -/
  emailDivClickOk : Bool
  /-- line 241: `query_selector('.OVnw0d')`. -/
  firstAccount : Lookup
  /-- line 243: `first_account.click()` completes. -/
  firstAccountClickOk : Bool
  /-- line 256: `page.get_by_label("Email or phone")` completes. -/
  emailLabelFindOk : Bool
  /-- line 257: `email_field.fill(email)` completes (a raise falls back to the
  generic input selector of line 261). -/
  emailLabelFillOk : Bool
  /-- line 261: `query_selector('input[type="email"]')`. -/
  emailInput : Lookup
  /-- line 271: `get_by_role("button", name="Next")`. -/
  nextBtn1 : Lookup
  /-- line 276: the fallback `query_selector('button[jsname="LgbsSe"]')`. -/
  nextBtn1Alt : Lookup
  /-- line 298: `page.get_by_label("Enter your password")`. -/
  passwordLabel : Lookup
  /-- line 303: the fallback `query_selector('input[type="password"]')`. -/
  passwordInput : Lookup
  /-- line 313: `get_by_role("button", name="Next")` for the password page. -/
  nextBtn2 : Lookup
  /-- line 315: `next_button.click()` completes (a raise skips the 5s wait). -/
  nextBtn2ClickOk : Bool
  /-- line 320: the fallback next-button `query_selector`. -/
  nextBtn2Alt : Lookup
  /-- line 335: `page.url` after the password submission. -/
  urlAfterLogin : String
  /-- line 342: `context.cookies()` completes (a raise skips the first write). -/
  cookiesGet1Ok : Bool
  /-- line 358: `page.url` at final verification. -/
  urlFinal : String
  /-- line 366: `context.cookies()` completes (a raise skips the final write). -/
  cookiesGet2Ok : Bool
  /-- per-iteration oracles for the `refresh_page_and_wait` call of line 376. -/
  pollEnv : Nat → IterEnv
  /-- line 399: `page.close()` completes. -/
  pageCloseOk : Bool
  /-- line 405: `context.close()` completes. -/
  contextCloseOk : Bool
  /-- line 411: `browser.close()` completes. -/
  browserCloseOk : Bool

/-- Lines 155-167: the best-effort cookie load.  The file is opened only when
it exists; a parse failure skips `add_cookies`; every failure is caught at
line 164. -/
def cookieLoadEvs (e : Env) : List Ev :=
  if e.cookieFileExists then
    Ev.cookieFileRead :: (if e.cookieParseOk then [Ev.browser "add_cookies"] else [])
  else []

/-- Line 163 is reached only when open, parse and `add_cookies` all complete. -/
def cookiesLoaded (e : Env) : Bool :=
  e.cookieFileExists && e.cookieParseOk && e.addCookiesOk

/-- Lines 179-194: `login_required` stays true unless cookies were loaded and
the cookie checkpoint accepts the current URL. -/
def loginRequired (e : Env) : Bool :=
  !(cookiesLoaded e && cookieCheckpoint e.urlAfterGoto1)

/-- Lines 222-248: account chooser clicks, three strategies in order, all
inside the try of line 223. -/
def accountPickOps (acc : Lookup) (c1 : Bool) (dv : Lookup) (c2 : Bool)
    (fst : Lookup) (c3 : Bool) : List String :=
  "get_by_text_email" ::
    match acc with
    | .err => []
    | .found => "click_account" :: (if c1 then ["wait_networkidle"] else [])
    | .notFound =>
      "query_email_div" ::
        match dv with
        | .err => []
        | .found => "click_account" :: (if c2 then ["wait_networkidle"] else [])
        | .notFound =>
          "query_first_account" ::
            match fst with
            | .err => []
            | .found => "click_account" :: (if c3 then ["wait_networkidle"] else [])
            | .notFound => []

/-- Lines 260-267: fallback email entry through the generic input selector. -/
def fallbackEmailOps (e : Env) : List String :=
  "query_email_input" ::
    match e.emailInput with
    | .err => []
    | .found => ["fill_email"]
    | .notFound => []

/-- Lines 253-267: label-based email fill, falling back on any raise. -/
def emailFillOps (e : Env) : List String :=
  "get_email_label" ::
    if e.emailLabelFindOk then
      "fill_email" :: (if e.emailLabelFillOk then [] else fallbackEmailOps e)
    else fallbackEmailOps e

/-- Lines 269-282: first next-button click with its fallback selector. -/
def nextBtn1Ops (e : Env) : List String :=
  "get_next_button" ::
    match e.nextBtn1 with
    | .err => []
    | .found => ["click_next"]
    | .notFound =>
      "query_next_alt" ::
        match e.nextBtn1Alt with
        | .err => []
        | .found => ["click_next"]
        | .notFound => []

/-- Lines 252-284: the email entry path of the chooser probe's else branch. -/
def emailEntryOps (e : Env) : List String :=
  emailFillOps e ++ nextBtn1Ops e

/-- Lines 212-286: the "Choose an account" probe and its two branches; a raise
of the initial wait or of the chooser query lands in the handler of line 285. -/
def chooseSectionOps (e : Env) : List String :=
  "wait_dom_choose" ::
    if e.waitDomChooseOk then
      "query_choose_account" ::
        match e.chooseAccount with
        | .err => []
        | .found =>
          accountPickOps e.emailAccount e.emailAccountClickOk e.emailDiv
            e.emailDivClickOk e.firstAccount e.firstAccountClickOk
        | .notFound => emailEntryOps e
    else []

/-- Lines 295-309: password fill through the label, else the input selector. -/
def passwordFillOps (e : Env) : List String :=
  "get_password_label" ::
    match e.passwordLabel with
    | .err => []
    | .found => ["fill_password"]
    | .notFound =>
      "query_password_input" ::
        match e.passwordInput with
        | .err => []
        | .found => ["fill_password"]
        | .notFound => []

/-- Lines 311-326: next-button submission on the password page. -/
def nextBtn2Ops (e : Env) : List String :=
  "get_next_button" ::
    match e.nextBtn2 with
    | .err => []
    | .found => "click_next" :: (if e.nextBtn2ClickOk then ["wait_5s"] else [])
    | .notFound =>
      "query_next_alt" ::
        match e.nextBtn2Alt with
        | .err => []
        | .found => ["click_next"]
        | .notFound => []

/-- Lines 288-326: the password wait (own try at line 289), fill and submit. -/
def passwordSectionOps (e : Env) : List String :=
  "wait_password_selector" :: (passwordFillOps e ++ nextBtn2Ops e)

/-- Lines 334-348: after the password flow, the login checkpoint decides
whether cookies are saved; the write attempt happens only when
`context.cookies()` completed, and its own failure is caught at line 345. -/
def postLoginSaveEvs (e : Env) : List Ev :=
  if loginCheckpoint e.urlAfterLogin then
    Ev.browser "cookies_get" :: (if e.cookiesGet1Ok then [Ev.cookieFileWrite] else [])
  else []

/-- Lines 196-348: the interactive login flow, entered when `login_required`. -/
def loginSectionEvs (e : Env) (appUrl : String) : List Ev :=
  (if strContains e.urlAtSigninCheck "signin" then []
   else
     Ev.nav appUrl :: Ev.browser "wait_dom_login" ::
       (if e.waitDomLoginOk then [Ev.browser "wait_idle_login"] else [])) ++
  (chooseSectionOps e).map Ev.browser ++
  (passwordSectionOps e).map Ev.browser ++
  [Ev.nav appUrl] ++
  postLoginSaveEvs e

/-- Lines 350-386: final navigation, final checkpoint, final cookie save, and
the readiness poll with constants `refresh_attempts=5`, `total_wait_time=120`
(line 376); on success the script waits 20 seconds (line 380). -/
def finalSectionEvs (e : Env) (appUrl : String) : List Ev :=
  Ev.nav appUrl ::
    if finalCheckpoint e.urlFinal then
      Ev.browser "cookies_get" ::
        ((if e.cookiesGet2Ok then [Ev.cookieFileWrite] else []) ++
          Ev.pollStart ::
            (((refresh_page_and_wait e.pollEnv 5 120).2).map
              (fun r => if r.reloaded then Ev.nav appUrl else Ev.browser "poll_iter")) ++
          (if (refresh_page_and_wait e.pollEnv 5 120).1 then [Ev.browser "wait_20s"]
           else []))
    else []

/-- Lines 171-390: everything inside the page-interaction try.  In this model
no statement of the block raises past its own handler (URL reads and fixed
waits are total), so the handler of line 388 never fires. -/
def pageInteractionEvs (e : Env) : List Ev :=
  Ev.nav (getAppUrl e.appUrlVar) ::
    ((if loginRequired e then loginSectionEvs e (getAppUrl e.appUrlVar) else []) ++
      finalSectionEvs e (getAppUrl e.appUrlVar))

/-- Lines 151-390: the body of the outer try.  `launch`, `new_context` and
`new_page` are the only calls whose raise escapes to the handler of line 392;
the second component is `none` exactly when that happens. -/
def runBodyE (e : Env) : List Ev × Option Unit :=
  if e.launchOk then
    if e.newContextOk then
      if e.newPageOk then
        (Ev.browser "launch" :: Ev.browser "new_context" ::
          (cookieLoadEvs e ++ Ev.browser "new_page" :: pageInteractionEvs e), some ())
      else
        (Ev.browser "launch" :: Ev.browser "new_context" ::
          (cookieLoadEvs e ++ [Ev.browser "new_page"]), none)
    else ([Ev.browser "launch", Ev.browser "new_context"], none)
  else ([Ev.browser "launch"], none)

/-- Whether the Python variables `browser`, `context`, `page` were assigned a
resource before the cleanup phase runs (lines 147-169). -/
def createdBrowser (e : Env) : Bool := e.launchOk
def createdContext (e : Env) : Bool := e.launchOk && e.newContextOk
def createdPage (e : Env) : Bool := e.launchOk && e.newContextOk && e.newPageOk

/-- One `close()` wrapped in its own try/except (lines 397-413): the attempt
always happens; a raise only produces a log line. -/
def closeAttemptEvs (name : String) (ok : Bool) : List Ev :=
  Ev.closeAttempt name :: (if ok then [] else [Ev.closeFailLog name])

/-- Lines 395-415: the `finally` block; each non-`None` resource is closed in
its own try/except, then the final status line is printed. -/
def cleanupEvs (e : Env) : List Ev :=
  (if createdPage e then closeAttemptEvs "page" e.pageCloseOk else []) ++
  (if createdContext e then closeAttemptEvs "context" e.contextCloseOk else []) ++
  (if createdBrowser e then closeAttemptEvs "browser" e.browserCloseOk else []) ++
  [Ev.finalStatus]

/-- Lines 130-137: both environment variables are read before the credential
check. -/
def preludeEvs : List Ev := [Ev.envRead "GOOGLE_PW", Ev.envRead "APP_URL"]

/-- The full event trace of one run: the environment reads, then either the
guidance-and-return of lines 141-145, or the try body followed by the
`finally` cleanup. -/
def runTrace (e : Env) : List Ev :=
  preludeEvs ++
    if credsBad e.googlePw then [Ev.guidance]
    else (runBodyE e).1 ++ cleanupEvs e

/-- `run(playwright)`: returns normally in every case.  The credential check
returns before the try (line 145); a raise of the body is caught at line 392
and the `finally` of line 395 still runs, so both arms produce a normal
result carrying the same trace. -/
def run (e : Env) : Except Unit (List Ev) :=
  if credsBad e.googlePw then Except.ok (preludeEvs ++ [Ev.guidance])
  else
    match runBodyE e with
    | (evs, some _) => Except.ok (preludeEvs ++ (evs ++ cleanupEvs e))
    | (evs, none) => Except.ok (preludeEvs ++ (evs ++ cleanupEvs e))

/-! ## Cookie jar serialization (`main.py` lines 160-162 and 342-344)

The script stores cookies as `json.dump(context.cookies(), f)` and restores
them with `json.load`.  The JSON text layer belongs to the external `json`
library; the jar is modelled at the JSON-value level.  Modelled from the spec:
a cookie record carries name, value, domain, path, expiry and flags. -/

/-- JSON values, as produced by `json.dump` / consumed by `json.load`. -/
inductive Json where
  | str (s : String) : Json
  | num (n : Int) : Json
  | bool (b : Bool) : Json
  | null : Json
  | arr (xs : List Json) : Json
  | obj (fields : List (String × Json)) : Json

/-- One cookie record of the persisted jar. -/
structure Cookie where
  name : String
  value : String
  domain : String
  path : String
  expires : Int
  httpOnly : Bool
  secure : Bool
  sameSite : String
deriving DecidableEq

/-- Serialization of one cookie record (the shape `json.dump` writes for one
element of `context.cookies()`). -/
def Cookie.toJson (c : Cookie) : Json :=
  Json.obj
    [("name", Json.str c.name), ("value", Json.str c.value),
     ("domain", Json.str c.domain), ("path", Json.str c.path),
     ("expires", Json.num c.expires), ("httpOnly", Json.bool c.httpOnly),
     ("secure", Json.bool c.secure), ("sameSite", Json.str c.sameSite)]

/-- Field access on a decoded JSON object. -/
def getField : List (String × Json) → String → Option Json
  | [], _ => none
  | (k, v) :: fs, key => if k = key then some v else getField fs key

/-- String projection of a JSON value. -/
def Json.asStr : Json → Option String
  | .str s => some s
  | _ => none

/-- Integer projection of a JSON value. -/
def Json.asNum : Json → Option Int
  | .num n => some n
  | _ => none

/-- Boolean projection of a JSON value. -/
def Json.asBool : Json → Option Bool
  | .bool b => some b
  | _ => none

/-- Deserialization of one cookie record from a decoded JSON value. -/
def Cookie.fromJson : Json → Option Cookie
  | Json.obj fs => do
    let n ← (getField fs "name").bind Json.asStr
    let v ← (getField fs "value").bind Json.asStr
    let d ← (getField fs "domain").bind Json.asStr
    let p ← (getField fs "path").bind Json.asStr
    let ex ← (getField fs "expires").bind Json.asNum
    let ho ← (getField fs "httpOnly").bind Json.asBool
    let sc ← (getField fs "secure").bind Json.asBool
    let ss ← (getField fs "sameSite").bind Json.asStr
    pure { name := n, value := v, domain := d, path := p, expires := ex,
           httpOnly := ho, secure := sc, sameSite := ss }
  | _ => none

/-- `json.dump(cookies, f)` at the value level: the jar becomes a JSON array of
cookie objects (lines 343-344 and 367-368). -/
def dumpCookies (cs : List Cookie) : Json :=
  Json.arr (cs.map Cookie.toJson)

/-- Interpretation of each element of the decoded array in turn; any
non-cookie element fails the whole load. -/
def loadCookieList : List Json → Option (List Cookie)
  | [] => some []
  | j :: js =>
    match Cookie.fromJson j, loadCookieList js with
    | some c, some cs => some (c :: cs)
    | _, _ => none

/-- `json.load(f)` followed by interpreting each record (lines 160-162). -/
def loadCookies : Json → Option (List Cookie)
  | Json.arr xs => loadCookieList xs
  | _ => none

/-! ## Helper lemmas -/

lemma stringMkData (s : String) : String.mk s.data = s := rfl

lemma splitFirstSpace_append (l1 l2 : List Char) (h : ∀ c ∈ l1, c ≠ ' ') :
    splitFirstSpace (l1 ++ ' ' :: l2) = some (l1, l2) := by
  induction l1 with
  | nil => simp [splitFirstSpace]
  | cons c cs ih =>
    have hc : c ≠ ' ' := h c (List.mem_cons_self c cs)
    simp [splitFirstSpace, hc, ih (fun x hx => h x (List.mem_cons_of_mem c hx))]

lemma pySplitOnce_append (id sec : String) (h : ∀ c ∈ id.data, c ≠ ' ') :
    pySplitOnce (id ++ " " ++ sec) = [id, sec] := by
  have hdata : (id ++ " " ++ sec).data = id.data ++ ' ' :: sec.data := by
    simp [String.data_append]
  simp [pySplitOnce, hdata, splitFirstSpace_append id.data sec.data h, stringMkData]

/-- The surface classes of malformed credential input named by the spec:
empty input, a single token without space, or a split yielding an empty
identifier or an empty secret. -/
def MalformedCred (gp : String) : Prop :=
  gp = "" ∨ pySplitOnce gp = [gp] ∨ (∃ b, pySplitOnce gp = ["", b]) ∨
    (∃ a, pySplitOnce gp = [a, ""])

lemma credsBad_of_malformed {gp : String} (h : MalformedCred gp) :
    credsBad gp = true := by
  by_cases hgp : gp = ""
  · subst hgp; rfl
  · rcases h with h | h | ⟨b, h⟩ | ⟨a, h⟩
    · exact absurd h hgp
    · simp [credsBad, emailOf, passwordOf, credsList, hgp, h, optFalsy]
    · simp [credsBad, emailOf, passwordOf, credsList, hgp, h, optFalsy]
    · simp [credsBad, emailOf, passwordOf, credsList, hgp, h, optFalsy]

lemma cookie_fromJson_toJson (c : Cookie) :
    Cookie.fromJson (Cookie.toJson c) = some c := rfl

lemma loadCookieList_map_toJson (cs : List Cookie) :
    loadCookieList (cs.map Cookie.toJson) = some cs := by
  induction cs with
  | nil => rfl
  | cons c cs ih => simp [loadCookieList, cookie_fromJson_toJson, ih]

/-! ## Claim theorems: authentication predicate and cookie jar -/

/-- C2: for every URL the authentication predicate holds iff the URL contains
the host marker and not the sign-in marker; the conditions used at the three
checkpoints (after cookie load, after interactive login, final verification)
all coincide with it; a URL containing both markers is rejected, and the
positive/negative scenario URLs evaluate as specified. -/
theorem auth_predicate_checkpoints :
    (∀ url : String,
      cookieCheckpoint url = isAuthenticated url ∧
      loginCheckpoint url = isAuthenticated url ∧
      finalCheckpoint url = isAuthenticated url ∧
      (isAuthenticated url = true ↔
        (strContains url "idx.google.com" = true ∧ strContains url "signin" = false))) ∧
    isAuthenticated "https://idx.google.com/app-43646734" = true ∧
    isAuthenticated "https://accounts.google.com/signin/identifier" = false ∧
    isAuthenticated "https://idx.google.com/signin/challenge" = false := by
  refine ⟨fun url => ⟨rfl, rfl, rfl, ?_⟩, by decide, by decide, by decide⟩
  simp [isAuthenticated, Bool.and_eq_true, Bool.not_eq_true']

/-- C8: serializing a cookie jar as done after authentication and reading it
back as done at startup recovers the same records (even in the same order,
hence in particular an order-insensitive equivalent multiset). -/
theorem cookie_roundtrip :
    ∀ cs : List Cookie,
      loadCookies (dumpCookies cs) = some cs ∧
      ∃ cs2, loadCookies (dumpCookies cs) = some cs2 ∧
        Multiset.ofList cs2 = Multiset.ofList cs := by
  intro cs
  have h : loadCookies (dumpCookies cs) = some cs := by
    simp [loadCookies, dumpCookies, loadCookieList_map_toJson]
  exact ⟨h, cs, h, rfl⟩

/-! ## Claim theorems: marker-2 search (C3) -/

lemma nestedPathStep_eq (e : IterEnv) :
    nestedPathStep e =
      (e.innerFrame.isFound && e.webTitleFrame.isFound &&
        e.previewFrame.isFound && e.nestedHeading.isFound) := by
  rcases e with ⟨wf, wbq, wc, cr, inf, wtf, pvf, nh, fl, ea⟩
  cases inf <;> cases wtf <;> cases pvf <;> cases nh <;> rfl

lemma marker2Step_eq (e : IterEnv) (wb ss : Bool) :
    marker2Step e wb ss =
      (ss || (wb && !ss && e.chainRootOk && (nestedPathStep e || fallbackFound e))) := by
  cases wb <;> cases ss <;> simp [marker2Step]

/-- C3: within one iteration the starting-server flag is set only when the
heading is actually located: the step is exactly "already set, or (searching
and the chain-root locator did not raise and) the nested path found it or the
fallback scan found it"; the nested path requires every level to be found, and
when it fails with the flag still unset the fallback scan decides. -/
theorem starting_server_only_when_located :
    ∀ (e : IterEnv) (wb ss : Bool),
      marker2Step e wb ss =
        (ss || (wb && !ss && e.chainRootOk && (nestedPathStep e || fallbackFound e))) ∧
      nestedPathStep e =
        (e.innerFrame.isFound && e.webTitleFrame.isFound &&
          e.previewFrame.isFound && e.nestedHeading.isFound) ∧
      (marker2Step e wb false = true →
        nestedPathStep e = true ∨ fallbackFound e = true) ∧
      (e.chainRootOk = true → nestedPathStep e = false →
        marker2Step e true false = fallbackFound e) := by
  intro e wb ss
  refine ⟨marker2Step_eq e wb ss, nestedPathStep_eq e, ?_, ?_⟩
  · intro h
    rw [marker2Step_eq] at h
    simp only [Bool.false_or, Bool.not_false, Bool.and_true, Bool.and_eq_true,
      Bool.or_eq_true] at h
    tauto
  · intro hcr hn
    cases wb <;> simp [marker2Step, hcr, hn]

/-! ## Poll loop lemmas (C1, C4) -/

lemma marker1Step_of_true (e : IterEnv) : marker1Step e true = true := rfl

lemma marker2Step_of_true (e : IterEnv) (wb : Bool) : marker2Step e wb true = true := by
  cases wb <;> simp [marker2Step]

lemma pollIterRec_mono (e : IterEnv) (el : Nat) (wb ss : Bool) :
    ((pollIterRec e el wb ss).wbAtStart = true → (pollIterRec e el wb ss).wbAtEnd = true) ∧
    ((pollIterRec e el wb ss).ssAtStart = true → (pollIterRec e el wb ss).ssAtEnd = true) ∧
    ((pollIterRec e el wb ss).marker2Attempted = true →
      (pollIterRec e el wb ss).wbAtEnd = true) ∧
    ((pollIterRec e el wb ss).wbAtStart = true →
      (pollIterRec e el wb ss).clickAttempted = false) := by
  refine ⟨?_, ?_, ?_, ?_⟩ <;> intro h <;> simp [pollIterRec] at h ⊢
  · subst h; rfl
  · subst h; exact marker2Step_of_true e _
  · exact h.1
  · subst h; simp [clickReached]

lemma pollLoop_length (env : Nat → IterEnv) (b : Nat) :
    ∀ (fuel el : Nat) (wb ss : Bool),
      (pollLoop env b fuel el wb ss).2.length ≤ fuel := by
  intro fuel
  induction fuel generalizing env with
  | zero => intro el wb ss; simp [pollLoop]
  | succ fuel ih =>
    intro el wb ss
    simp only [pollLoop]
    split
    · split
      · simp
      · simpa using Nat.succ_le_succ (ih (fun n => env (n + 1)) _ _ _)
    · simp

lemma pollLoop_elapsed_lt (env : Nat → IterEnv) (b : Nat) :
    ∀ (fuel el : Nat) (wb ss : Bool),
      ∀ r ∈ (pollLoop env b fuel el wb ss).2, r.elapsedAtStart < b := by
  intro fuel
  induction fuel generalizing env with
  | zero => intro el wb ss; simp [pollLoop]
  | succ fuel ih =>
    intro el wb ss r hr
    simp only [pollLoop] at hr
    split at hr
    · split at hr
      · simp at hr
        subst hr
        simpa [pollIterRec] using by assumption
      · simp at hr
        rcases hr with hr | hr
        · subst hr
          simpa [pollIterRec] using by assumption
        · exact ih (fun n => env (n + 1)) _ _ _ r hr
    · simp at hr

lemma pollLoop_head_state (env : Nat → IterEnv) (b fuel el : Nat) (wb ss : Bool) :
    ∀ r, (pollLoop env b fuel el wb ss).2.head? = some r →
      r.wbAtStart = wb ∧ r.ssAtStart = ss ∧ r.elapsedAtStart = el := by
  intro r hr
  cases fuel with
  | zero => simp [pollLoop] at hr
  | succ fuel =>
    simp only [pollLoop] at hr
    split at hr
    · split at hr <;>
        · simp at hr
          subst hr
          exact ⟨rfl, rfl, rfl⟩
    · simp at hr

lemma pollLoop_chain (env : Nat → IterEnv) (b : Nat) :
    ∀ (fuel el : Nat) (wb ss : Bool),
      List.Chain' (fun p q => p.wbAtEnd = q.wbAtStart ∧ p.ssAtEnd = q.ssAtStart)
        (pollLoop env b fuel el wb ss).2 := by
  intro fuel
  induction fuel generalizing env with
  | zero => intro el wb ss; simp [pollLoop]
  | succ fuel ih =>
    intro el wb ss
    simp only [pollLoop]
    split
    · split
      · simp
      · refine List.chain'_cons'.mpr ⟨?_, ih (fun n => env (n + 1)) _ _ _⟩
        intro q hq
        have h := pollLoop_head_state (fun n => env (n + 1)) b fuel
          ((env 0).elapsedAfter) _ _ q hq
        exact ⟨h.1.symm, h.2.1.symm⟩
    · simp

lemma pollLoop_mem_facts (env : Nat → IterEnv) (b : Nat) :
    ∀ (fuel el : Nat) (wb ss : Bool),
      ∀ r ∈ (pollLoop env b fuel el wb ss).2,
        (r.wbAtStart = true → r.wbAtEnd = true) ∧
        (r.ssAtStart = true → r.ssAtEnd = true) ∧
        (r.marker2Attempted = true → r.wbAtEnd = true) ∧
        (r.wbAtStart = true → r.clickAttempted = false) := by
  intro fuel
  induction fuel generalizing env with
  | zero => intro el wb ss; simp [pollLoop]
  | succ fuel ih =>
    intro el wb ss r hr
    simp only [pollLoop] at hr
    split at hr
    · split at hr
      · simp at hr
        subst hr
        exact pollIterRec_mono (env 0) el wb ss
      · simp at hr
        rcases hr with hr | hr
        · subst hr
          exact pollIterRec_mono (env 0) el wb ss
        · exact ih (fun n => env (n + 1)) _ _ _ r hr
    · simp at hr

lemma pollLoop_res_iff (env : Nat → IterEnv) (b : Nat) :
    ∀ (fuel el : Nat) (wb ss : Bool),
      ((pollLoop env b fuel el wb ss).1 = true ↔
        (wb && ss) = true ∨
          ∃ r ∈ (pollLoop env b fuel el wb ss).2,
            r.wbAtEnd = true ∧ r.ssAtEnd = true) := by
  intro fuel
  induction fuel generalizing env with
  | zero => intro el wb ss; simp [pollLoop]
  | succ fuel ih =>
    intro el wb ss
    simp only [pollLoop]
    split
    · split
      · rename_i hboth
        simp only [Bool.and_eq_true] at hboth
        simp [hboth]
      · rename_i hnboth
        simp only [Bool.and_eq_true] at hnboth
        have hwb2 : ¬((pollIterRec (env 0) el wb ss).wbAtEnd = true ∧
            (pollIterRec (env 0) el wb ss).ssAtEnd = true) := by
          intro hc; exact hnboth ⟨hc.1, hc.2⟩
        have hstart : ¬(wb = true ∧ ss = true) := by
          intro hc
          apply hwb2
          refine ⟨?_, ?_⟩
          · simp [pollIterRec, hc.1, marker1Step_of_true]
          · simp [pollIterRec, hc.1, hc.2, marker1Step_of_true, marker2Step_of_true]
        have := ih (fun n => env (n + 1)) ((env 0).elapsedAfter)
          (pollIterRec (env 0) el wb ss).wbAtEnd (pollIterRec (env 0) el wb ss).ssAtEnd
        simp only [Bool.and_eq_true] at this ⊢
        simp only [this, List.mem_cons]
        constructor
        · intro h
          rcases h with h | ⟨r, hr, hboth⟩
          · exact absurd h hwb2
          · exact Or.inr ⟨r, Or.inr hr, hboth⟩
        · intro h
          rcases h with h | ⟨r, hr, hboth⟩
          · exact absurd h hstart
          · rcases hr with hr | hr
            · subst hr; exact absurd hboth hwb2
            · exact Or.inr ⟨r, hr, hboth⟩
    · simp

/-! ## Claim theorems: poll budgets and flag invariants (C1, C4) -/

/-- C1: every call of the readiness poll performs at most `refresh_attempts`
iterations and reloads, every executed iteration starts strictly inside the
time budget, the call returns true exactly when some iteration ends with both
flags set (so false whenever the budgets are exhausted before that), and with
one allowed reload and a zero time budget it returns false immediately with no
iteration at all. -/
theorem poll_budgets_and_result :
    (∀ (env : Nat → IterEnv) (attempts totalWait : Nat),
      (refresh_page_and_wait env attempts totalWait).2.length ≤ attempts ∧
      (refresh_page_and_wait env attempts totalWait).2.countP
        (fun r => r.reloaded) ≤ attempts ∧
      (∀ r ∈ (refresh_page_and_wait env attempts totalWait).2,
        r.elapsedAtStart < totalWait * 1000) ∧
      ((refresh_page_and_wait env attempts totalWait).1 = true ↔
        ∃ r ∈ (refresh_page_and_wait env attempts totalWait).2,
          r.wbAtEnd = true ∧ r.ssAtEnd = true)) ∧
    (∀ env : Nat → IterEnv, refresh_page_and_wait env 1 0 = (false, [])) := by
  constructor
  · intro env attempts totalWait
    refine ⟨pollLoop_length env _ attempts 0 false false,
      le_trans (List.countP_le_length _) (pollLoop_length env _ attempts 0 false false),
      pollLoop_elapsed_lt env _ attempts 0 false false, ?_⟩
    have h := pollLoop_res_iff env (totalWait * 1000) attempts 0 false false
    simpa [refresh_page_and_wait] using h
  · intro env; rfl

/-- C4: within one poll call both flags evolve monotonically inside every
iteration and across consecutive iterations (they are never reset), the
marker-2 search is attempted only with the web-button flag already true, the
click is never attempted in an iteration that starts with the flag set, and
the first iteration starts with both flags false. -/
theorem poll_flags_monotone_no_reclick :
    ∀ (env : Nat → IterEnv) (attempts totalWait : Nat),
      (∀ r ∈ (refresh_page_and_wait env attempts totalWait).2,
        (r.wbAtStart = true → r.wbAtEnd = true) ∧
        (r.ssAtStart = true → r.ssAtEnd = true) ∧
        (r.marker2Attempted = true → r.wbAtEnd = true) ∧
        (r.wbAtStart = true → r.clickAttempted = false)) ∧
      List.Chain' (fun p q => p.wbAtEnd = q.wbAtStart ∧ p.ssAtEnd = q.ssAtStart)
        (refresh_page_and_wait env attempts totalWait).2 ∧
      (∀ r0, (refresh_page_and_wait env attempts totalWait).2.head? = some r0 →
        r0.wbAtStart = false ∧ r0.ssAtStart = false) := by
  intro env attempts totalWait
  refine ⟨pollLoop_mem_facts env _ attempts 0 false false,
    pollLoop_chain env _ attempts 0 false false, ?_⟩
  intro r0 h
  have := pollLoop_head_state env (totalWait * 1000) attempts 0 false false r0 h
  exact ⟨this.1, this.2.1⟩

/-! ## Event classifiers and trace counting -/

/-- A cookie-file write attempt. -/
def isWrite : Ev → Bool
  | .cookieFileWrite => true
  | _ => false

/-- A cookie-file read attempt. -/
def isRead : Ev → Bool
  | .cookieFileRead => true
  | _ => false

/-- Entry into the readiness poll. -/
def isPollStart : Ev → Bool
  | .pollStart => true
  | _ => false

/-- A read of the named environment variable. -/
def isEnvReadOf (n : String) : Ev → Bool
  | .envRead m => m == n
  | _ => false

/-- A navigation to any URL other than `u`. -/
def isNavOther (u : String) : Ev → Bool
  | .nav v => !(v == u)
  | _ => false

/-- Any browser, page or network action of the model. -/
def isExternalAction : Ev → Bool
  | .nav _ => true
  | .browser _ => true
  | .pollStart => true
  | .closeAttempt _ => true
  | _ => false

lemma countP_map_browser (p : Ev → Bool) (hb : ∀ s, p (Ev.browser s) = false)
    (l : List String) : (l.map Ev.browser).countP p = 0 := by
  rw [List.countP_map]
  exact List.countP_eq_zero.mpr fun a _ => by simp [Function.comp, hb]

lemma countP_pollIters (p : Ev → Bool) (hb : ∀ s, p (Ev.browser s) = false)
    (u : String) (hnu : p (Ev.nav u) = false) (tr : List IterRec) :
    (tr.map (fun r => if r.reloaded then Ev.nav u else Ev.browser "poll_iter")).countP p
      = 0 := by
  rw [List.countP_map]
  refine List.countP_eq_zero.mpr fun a _ => ?_
  cases hr : a.reloaded <;> simp [Function.comp, hr, hb, hnu]

lemma countP_prelude (p : Ev → Bool) :
    preludeEvs.countP p =
      (if p (Ev.envRead "GOOGLE_PW") then 1 else 0) +
        (if p (Ev.envRead "APP_URL") then 1 else 0) := by
  cases h1 : p (Ev.envRead "GOOGLE_PW") <;> cases h2 : p (Ev.envRead "APP_URL") <;>
    simp [preludeEvs, h1, h2]

lemma countP_cookieLoad (p : Ev → Bool) (hb : ∀ s, p (Ev.browser s) = false) (e : Env) :
    (cookieLoadEvs e).countP p =
      if e.cookieFileExists && p Ev.cookieFileRead then 1 else 0 := by
  cases h1 : e.cookieFileExists <;> cases h2 : e.cookieParseOk <;>
    cases h3 : p Ev.cookieFileRead <;>
    simp [cookieLoadEvs, h1, h2, h3, hb]

lemma countP_postLoginSave (p : Ev → Bool) (hb : ∀ s, p (Ev.browser s) = false) (e : Env) :
    (postLoginSaveEvs e).countP p =
      if loginCheckpoint e.urlAfterLogin && e.cookiesGet1Ok && p Ev.cookieFileWrite
      then 1 else 0 := by
  cases h1 : loginCheckpoint e.urlAfterLogin <;> cases h2 : e.cookiesGet1Ok <;>
    cases h3 : p Ev.cookieFileWrite <;>
    simp [postLoginSaveEvs, h1, h2, h3, hb]

lemma countP_loginSection (p : Ev → Bool) (hb : ∀ s, p (Ev.browser s) = false)
    (e : Env) (u : String) (hnu : p (Ev.nav u) = false) :
    (loginSectionEvs e u).countP p =
      if loginCheckpoint e.urlAfterLogin && e.cookiesGet1Ok && p Ev.cookieFileWrite
      then 1 else 0 := by
  have hpre : (if strContains e.urlAtSigninCheck "signin" then ([] : List Ev)
      else Ev.nav u :: Ev.browser "wait_dom_login" ::
        (if e.waitDomLoginOk then [Ev.browser "wait_idle_login"] else [])).countP p
      = 0 := by
    cases h1 : strContains e.urlAtSigninCheck "signin" <;>
      cases h2 : e.waitDomLoginOk <;> simp [h1, h2, hb, hnu]
  simp [loginSectionEvs, List.countP_append, hpre, hnu,
    countP_map_browser p hb, countP_postLoginSave p hb e]

lemma countP_finalSection (p : Ev → Bool) (hb : ∀ s, p (Ev.browser s) = false)
    (e : Env) (u : String) (hnu : p (Ev.nav u) = false) :
    (finalSectionEvs e u).countP p =
      (if finalCheckpoint e.urlFinal && e.cookiesGet2Ok && p Ev.cookieFileWrite
       then 1 else 0) +
      (if finalCheckpoint e.urlFinal && p Ev.pollStart then 1 else 0) := by
  have hmap := countP_pollIters p hb u hnu (refresh_page_and_wait e.pollEnv 5 120).2
  have hwait : (if (refresh_page_and_wait e.pollEnv 5 120).1
      then [Ev.browser "wait_20s"] else ([] : List Ev)).countP p = 0 := by
    cases h : (refresh_page_and_wait e.pollEnv 5 120).1 <;> simp [h, hb]
  cases h1 : finalCheckpoint e.urlFinal <;> cases h2 : e.cookiesGet2Ok <;>
    cases h3 : p Ev.cookieFileWrite <;> cases h4 : p Ev.pollStart <;>
    simp [finalSectionEvs, List.countP_append, h1, h2, h3, h4, hb, hnu, hmap, hwait]

/-- Whether the page-interaction section (lines 171-386) is reached: launch,
context and page creation must all have completed. -/
def reachedInteraction (e : Env) : Bool :=
  e.launchOk && e.newContextOk && e.newPageOk

lemma countP_pageInteraction (p : Ev → Bool) (hb : ∀ s, p (Ev.browser s) = false)
    (e : Env) (hnu : p (Ev.nav (getAppUrl e.appUrlVar)) = false) :
    (pageInteractionEvs e).countP p =
      (if loginRequired e && loginCheckpoint e.urlAfterLogin && e.cookiesGet1Ok &&
          p Ev.cookieFileWrite then 1 else 0) +
      ((if finalCheckpoint e.urlFinal && e.cookiesGet2Ok && p Ev.cookieFileWrite
        then 1 else 0) +
       (if finalCheckpoint e.urlFinal && p Ev.pollStart then 1 else 0)) := by
  have hlog : (if loginRequired e then loginSectionEvs e (getAppUrl e.appUrlVar)
      else ([] : List Ev)).countP p =
      if loginRequired e && loginCheckpoint e.urlAfterLogin && e.cookiesGet1Ok &&
        p Ev.cookieFileWrite then 1 else 0 := by
    cases h1 : loginRequired e <;>
      simp [h1, countP_loginSection p hb e (getAppUrl e.appUrlVar) hnu]
  simp [pageInteractionEvs, List.countP_append, List.countP_cons, hnu, hlog,
    countP_finalSection p hb e (getAppUrl e.appUrlVar) hnu]

lemma countP_runBody (p : Ev → Bool) (hb : ∀ s, p (Ev.browser s) = false)
    (e : Env) (hnu : p (Ev.nav (getAppUrl e.appUrlVar)) = false) :
    (runBodyE e).1.countP p =
      (if e.launchOk && e.newContextOk && e.cookieFileExists && p Ev.cookieFileRead
       then 1 else 0) +
      ((if reachedInteraction e && loginRequired e && loginCheckpoint e.urlAfterLogin &&
          e.cookiesGet1Ok && p Ev.cookieFileWrite then 1 else 0) +
       ((if reachedInteraction e && finalCheckpoint e.urlFinal && e.cookiesGet2Ok &&
           p Ev.cookieFileWrite then 1 else 0) +
        (if reachedInteraction e && finalCheckpoint e.urlFinal && p Ev.pollStart
         then 1 else 0))) := by
  cases h1 : e.launchOk <;> cases h2 : e.newContextOk <;> cases h3 : e.newPageOk <;>
    simp [runBodyE, reachedInteraction, h1, h2, h3, List.countP_append,
      List.countP_cons, hb, countP_cookieLoad p hb e,
      countP_pageInteraction p hb e hnu]

lemma countP_closeAttemptEvs (p : Ev → Bool) (hc : ∀ s, p (Ev.closeAttempt s) = false)
    (hf : ∀ s, p (Ev.closeFailLog s) = false) (name : String) (ok : Bool) :
    (closeAttemptEvs name ok).countP p = 0 := by
  cases ok <;> simp [closeAttemptEvs, hc, hf]

lemma countP_cleanup_zero (p : Ev → Bool) (hc : ∀ s, p (Ev.closeAttempt s) = false)
    (hf : ∀ s, p (Ev.closeFailLog s) = false) (hst : p Ev.finalStatus = false)
    (e : Env) : (cleanupEvs e).countP p = 0 := by
  have h := countP_closeAttemptEvs p hc hf
  cases h1 : createdPage e <;> cases h2 : createdContext e <;>
    cases h3 : createdBrowser e <;>
    simp [cleanupEvs, h1, h2, h3, List.countP_append, h, hst]

lemma countP_runTrace_split (p : Ev → Bool) (hg : p Ev.guidance = false)
    (hc : ∀ s, p (Ev.closeAttempt s) = false)
    (hf : ∀ s, p (Ev.closeFailLog s) = false) (hst : p Ev.finalStatus = false)
    (e : Env) :
    (runTrace e).countP p =
      preludeEvs.countP p +
        if credsBad e.googlePw then 0 else (runBodyE e).1.countP p := by
  cases hcb : credsBad e.googlePw <;>
    simp [runTrace, hcb, List.countP_append, hg,
      countP_cleanup_zero p hc hf hst e]

lemma cleanup_getLast (e : Env) :
    (cleanupEvs e).getLast? = some Ev.finalStatus := by
  unfold cleanupEvs
  rw [List.getLast?_append_cons]
  rfl

lemma cleanup_ne_nil (e : Env) : cleanupEvs e ≠ [] := by
  unfold cleanupEvs
  simp

/-! ## Concrete oracle environments for witnesses and counterexamples -/

/-- An iteration oracle where every lookup succeeds at once. -/
def iterAllFound : IterEnv :=
  { webFrame := .found, webButton := .found, webClickOk := true,
    chainRootOk := true, innerFrame := .found, webTitleFrame := .found,
    previewFrame := .found, nestedHeading := .found, framesList := some [],
    elapsedAfter := 1000 }

/-- A fully successful run oracle: valid credentials, cookie file present and
valid, every browser call succeeds, every URL read is the authenticated target
URL, and the poll finds both markers in its first iteration. -/
def baseEnv : Env :=
  { googlePw := "user@example.com secret123"
    appUrlVar := none
    launchOk := true, newContextOk := true
    cookieFileExists := true, cookieParseOk := true, addCookiesOk := true
    newPageOk := true
    urlAfterGoto1 := "https://idx.google.com/app-43646734"
    urlAtSigninCheck := "https://idx.google.com/app-43646734"
    waitDomLoginOk := true, waitDomChooseOk := true
    chooseAccount := .notFound
    emailAccount := .notFound, emailAccountClickOk := true
    emailDiv := .notFound, emailDivClickOk := true
    firstAccount := .notFound, firstAccountClickOk := true
    emailLabelFindOk := true, emailLabelFillOk := true
    emailInput := .notFound
    nextBtn1 := .found, nextBtn1Alt := .notFound
    passwordLabel := .found, passwordInput := .notFound
    nextBtn2 := .found, nextBtn2ClickOk := true, nextBtn2Alt := .notFound
    urlAfterLogin := "https://idx.google.com/app-43646734"
    cookiesGet1Ok := true
    urlFinal := "https://idx.google.com/app-43646734"
    cookiesGet2Ok := true
    pollEnv := fun _ => iterAllFound
    pageCloseOk := true, contextCloseOk := true, browserCloseOk := true }

/-- The fully successful oracle with an empty credential string. -/
def emptyCredEnv : Env := { baseEnv with googlePw := "" }

/-! ## Claim theorems: credential guard (C5) and normal return (C6) -/

/-- C5: for every malformed or missing credential input (empty string, single
token, empty identifier or empty secret after the split) the run returns the
guidance trace of lines 142-145: the two environment reads and the guidance
text, with no browser/page/network action and no cookie-file access. -/
theorem malformed_credentials_abort :
    ∀ e : Env, MalformedCred e.googlePw →
      run e = Except.ok [Ev.envRead "GOOGLE_PW", Ev.envRead "APP_URL", Ev.guidance] ∧
      [Ev.envRead "GOOGLE_PW", Ev.envRead "APP_URL", Ev.guidance].countP
        isExternalAction = 0 ∧
      Ev.cookieFileRead ∉
        [Ev.envRead "GOOGLE_PW", Ev.envRead "APP_URL", Ev.guidance] ∧
      Ev.cookieFileWrite ∉
        [Ev.envRead "GOOGLE_PW", Ev.envRead "APP_URL", Ev.guidance] := by
  intro e h
  have hcb := credsBad_of_malformed h
  refine ⟨?_, by decide, by decide, by decide⟩
  simp [run, hcb, preludeEvs]

/-- Witness for C5 at the concrete empty credential string. -/
theorem malformed_credentials_abort_witness :
    run emptyCredEnv =
      Except.ok [Ev.envRead "GOOGLE_PW", Ev.envRead "APP_URL", Ev.guidance] ∧
    [Ev.envRead "GOOGLE_PW", Ev.envRead "APP_URL", Ev.guidance].countP
      isExternalAction = 0 ∧
    Ev.cookieFileRead ∉
      [Ev.envRead "GOOGLE_PW", Ev.envRead "APP_URL", Ev.guidance] ∧
    Ev.cookieFileWrite ∉
      [Ev.envRead "GOOGLE_PW", Ev.envRead "APP_URL", Ev.guidance] :=
  malformed_credentials_abort emptyCredEnv (Or.inl rfl)

/-- C6: for every oracle environment — hence for every combination of raised
and failed browser operations — `run` returns normally; when the credentials
pass the guard the last printed line is the final status line of line 415, and
on the credential abort path the last line is the guidance text. -/
theorem run_always_returns_normally :
    ∀ e : Env,
      run e = Except.ok (runTrace e) ∧
      (credsBad e.googlePw = false →
        (runTrace e).getLast? = some Ev.finalStatus) ∧
      (credsBad e.googlePw = true →
        (runTrace e).getLast? = some Ev.guidance) := by
  intro e
  refine ⟨?_, ?_, ?_⟩
  · rcases hb : runBodyE e with ⟨evs, o⟩
    cases hcb : credsBad e.googlePw <;> cases o <;> simp [run, runTrace, hcb, hb]
  · intro hcb
    have h2 := cleanup_ne_nil e
    have h1 : (runBodyE e).1 ++ cleanupEvs e ≠ [] := by
      intro hx
      exact h2 (List.append_eq_nil.mp hx).2
    simp only [runTrace, hcb, Bool.false_eq_true, if_false]
    rw [List.getLast?_append_of_ne_nil preludeEvs h1,
      List.getLast?_append_of_ne_nil _ h2]
    exact cleanup_getLast e
  · intro hcb
    simp [runTrace, hcb]

/-- Witness for C6 at the fully successful oracle. -/
theorem run_always_returns_normally_witness :
    run baseEnv = Except.ok (runTrace baseEnv) ∧
    (credsBad baseEnv.googlePw = false →
      (runTrace baseEnv).getLast? = some Ev.finalStatus) ∧
    (credsBad baseEnv.googlePw = true →
      (runTrace baseEnv).getLast? = some Ev.guidance) :=
  run_always_returns_normally baseEnv

/-! ## Claim theorems: cleanup phase (C9) -/

/-- Any `close()` attempt event. -/
def isCloseAny : Ev → Bool
  | .closeAttempt _ => true
  | _ => false

lemma body_no_close (e : Env) (s : String) :
    Ev.closeAttempt s ∉ (runBodyE e).1 := by
  intro hmem
  have h : (runBodyE e).1.countP isCloseAny = 0 := by
    rw [countP_runBody isCloseAny (fun s2 => rfl) e rfl]
    simp [isCloseAny]
  have h2 := List.countP_eq_zero.mp h _ hmem
  simp [isCloseAny] at h2

lemma mem_cleanup_page (e : Env) :
    (Ev.closeAttempt "page" ∈ cleanupEvs e ↔ createdPage e = true) := by
  cases h1 : createdPage e <;> cases h2 : createdContext e <;>
    cases h3 : createdBrowser e <;> cases h4 : e.pageCloseOk <;>
    cases h5 : e.contextCloseOk <;> cases h6 : e.browserCloseOk <;>
    simp [cleanupEvs, closeAttemptEvs, h1, h2, h3, h4, h5, h6]

lemma mem_cleanup_context (e : Env) :
    (Ev.closeAttempt "context" ∈ cleanupEvs e ↔ createdContext e = true) := by
  cases h1 : createdPage e <;> cases h2 : createdContext e <;>
    cases h3 : createdBrowser e <;> cases h4 : e.pageCloseOk <;>
    cases h5 : e.contextCloseOk <;> cases h6 : e.browserCloseOk <;>
    simp [cleanupEvs, closeAttemptEvs, h1, h2, h3, h4, h5, h6]

lemma mem_cleanup_browser (e : Env) :
    (Ev.closeAttempt "browser" ∈ cleanupEvs e ↔ createdBrowser e = true) := by
  cases h1 : createdPage e <;> cases h2 : createdContext e <;>
    cases h3 : createdBrowser e <;> cases h4 : e.pageCloseOk <;>
    cases h5 : e.contextCloseOk <;> cases h6 : e.browserCloseOk <;>
    simp [cleanupEvs, closeAttemptEvs, h1, h2, h3, h4, h5, h6]

lemma mem_runTrace_close (e : Env) (s : String) :
    (Ev.closeAttempt s ∈ runTrace e ↔
      credsBad e.googlePw = false ∧ Ev.closeAttempt s ∈ cleanupEvs e) := by
  cases hcb : credsBad e.googlePw <;>
    simp [runTrace, hcb, preludeEvs, body_no_close e s]

/-- C9: on every path of every oracle environment (normal completion, early
credential abort, or a raise at any stage, with close failures arbitrary), the
trace contains a close attempt for exactly the resources that were created;
in particular the three attempts do not depend on one another's success. -/
theorem cleanup_closes_created_resources :
    ∀ e : Env,
      (Ev.closeAttempt "page" ∈ runTrace e ↔
        credsBad e.googlePw = false ∧ createdPage e = true) ∧
      (Ev.closeAttempt "context" ∈ runTrace e ↔
        credsBad e.googlePw = false ∧ createdContext e = true) ∧
      (Ev.closeAttempt "browser" ∈ runTrace e ↔
        credsBad e.googlePw = false ∧ createdBrowser e = true) := by
  intro e
  refine ⟨?_, ?_, ?_⟩
  · rw [mem_runTrace_close e, and_congr_right_iff]
    intro h
    exact mem_cleanup_page e
  · rw [mem_runTrace_close e, and_congr_right_iff]
    intro h
    exact mem_cleanup_context e
  · rw [mem_runTrace_close e, and_congr_right_iff]
    intro h
    exact mem_cleanup_browser e

/-- The fully successful oracle, except that page and context closes fail. -/
def failCloseEnv : Env :=
  { baseEnv with pageCloseOk := false, contextCloseOk := false }

/-- Witness for C9: an oracle where page and context closes fail still attempts
all three closes. -/
theorem cleanup_closes_created_resources_witness :
    (Ev.closeAttempt "page" ∈ runTrace failCloseEnv ↔
      credsBad failCloseEnv.googlePw = false ∧ createdPage failCloseEnv = true) ∧
    (Ev.closeAttempt "context" ∈ runTrace failCloseEnv ↔
      credsBad failCloseEnv.googlePw = false ∧ createdContext failCloseEnv = true) ∧
    (Ev.closeAttempt "browser" ∈ runTrace failCloseEnv ↔
      credsBad failCloseEnv.googlePw = false ∧ createdBrowser failCloseEnv = true) :=
  cleanup_closes_created_resources failCloseEnv

/-! ## Claim theorems: configuration reads and credential split (C10) -/

lemma appended_cred_ne_empty (id sec : String) : id ++ " " ++ sec ≠ "" := by
  intro h
  have hd : (id ++ " " ++ sec).data = [] := by rw [h]
  simp [String.data_append] at hd

lemma countP_envRead_runTrace (e : Env) (n : String) :
    (runTrace e).countP (isEnvReadOf n) =
      preludeEvs.countP (isEnvReadOf n) := by
  rw [countP_runTrace_split (isEnvReadOf n) rfl (fun s => rfl) (fun s => rfl) rfl e,
    countP_runBody (isEnvReadOf n) (fun s => rfl) e rfl]
  simp [isEnvReadOf]

lemma countP_navOther_runTrace (e : Env) :
    (runTrace e).countP (isNavOther (getAppUrl e.appUrlVar)) = 0 := by
  rw [countP_runTrace_split (isNavOther (getAppUrl e.appUrlVar)) rfl (fun s => rfl)
    (fun s => rfl) rfl e,
    countP_runBody (isNavOther (getAppUrl e.appUrlVar)) (fun s => rfl) e (by
      simp [isNavOther])]
  simp [isNavOther, preludeEvs]

/-- C10: the target URL defaults to the fixed URL when `APP_URL` is unset and
otherwise is the variable's value; each environment variable is read exactly
once per run; every navigation of the run uses the once-read URL; and the
credential string is split only at its first space, so a secret containing
spaces is recovered intact. -/
theorem config_read_once_split_first_space :
    getAppUrl none = "https://idx.google.com/app-43646734" ∧
    (∀ u, getAppUrl (some u) = u) ∧
    (∀ id sec : String, (∀ c ∈ id.data, c ≠ ' ') →
      pySplitOnce (id ++ " " ++ sec) = [id, sec] ∧
      emailOf (id ++ " " ++ sec) = some id ∧
      passwordOf (id ++ " " ++ sec) = some sec) ∧
    (∀ e : Env,
      (runTrace e).countP (isEnvReadOf "GOOGLE_PW") = 1 ∧
      (runTrace e).countP (isEnvReadOf "APP_URL") = 1 ∧
      (∀ v, Ev.nav v ∈ runTrace e → v = getAppUrl e.appUrlVar)) := by
  refine ⟨rfl, fun u => rfl, ?_, ?_⟩
  · intro id sec h
    have hsplit := pySplitOnce_append id sec h
    have hne := appended_cred_ne_empty id sec
    exact ⟨hsplit, by simp [emailOf, credsList, hne, hsplit],
      by simp [passwordOf, credsList, hne, hsplit]⟩
  · intro e
    refine ⟨?_, ?_, ?_⟩
    · rw [countP_envRead_runTrace e]
      simp [preludeEvs, isEnvReadOf]
    · rw [countP_envRead_runTrace e]
      simp [preludeEvs, isEnvReadOf]
    · intro v hv
      have h0 := countP_navOther_runTrace e
      have h2 := List.countP_eq_zero.mp h0 _ hv
      simp [isNavOther] at h2
      exact h2

/-- Witness for C10: the scenario secret containing a space is preserved. -/
theorem config_read_once_split_first_space_witness :
    pySplitOnce ("user@example.com" ++ " " ++ "secret 123") =
      ["user@example.com", "secret 123"] ∧
    emailOf ("user@example.com" ++ " " ++ "secret 123") = some "user@example.com" ∧
    passwordOf ("user@example.com" ++ " " ++ "secret 123") = some "secret 123" :=
  config_read_once_split_first_space.2.2.1 "user@example.com" "secret 123"
    (by decide)

/-! ## Claim theorems: cookie-file writes (C7) -/

lemma runTrace_poll_split (e : Env) (hcb : credsBad e.googlePw = false)
    (hre : reachedInteraction e = true) (hfc : finalCheckpoint e.urlFinal = true) :
    ∃ l1 l2, runTrace e = l1 ++ Ev.pollStart :: l2 ∧
      l1.countP isPollStart = 0 ∧ l2.countP isWrite = 0 := by
  have h1 : e.launchOk = true := by
    simp [reachedInteraction, Bool.and_eq_true] at hre
    exact hre.1.1
  have h2 : e.newContextOk = true := by
    simp [reachedInteraction, Bool.and_eq_true] at hre
    exact hre.1.2
  have h3 : e.newPageOk = true := by
    simp [reachedInteraction, Bool.and_eq_true] at hre
    exact hre.2
  refine ⟨preludeEvs ++
      (Ev.browser "launch" :: Ev.browser "new_context" ::
        (cookieLoadEvs e ++ Ev.browser "new_page" ::
          Ev.nav (getAppUrl e.appUrlVar) ::
            ((if loginRequired e then loginSectionEvs e (getAppUrl e.appUrlVar)
              else []) ++
              Ev.nav (getAppUrl e.appUrlVar) :: Ev.browser "cookies_get" ::
                (if e.cookiesGet2Ok then [Ev.cookieFileWrite] else [])))),
    ((refresh_page_and_wait e.pollEnv 5 120).2.map
        (fun r => if r.reloaded then Ev.nav (getAppUrl e.appUrlVar)
          else Ev.browser "poll_iter")) ++
      ((if (refresh_page_and_wait e.pollEnv 5 120).1 then [Ev.browser "wait_20s"]
        else []) ++ cleanupEvs e), ?_, ?_, ?_⟩
  · simp [runTrace, hcb, runBodyE, h1, h2, h3, pageInteractionEvs, finalSectionEvs,
      hfc, List.append_assoc]
  · have hcl : (cookieLoadEvs e).countP isPollStart = 0 := by
      rw [countP_cookieLoad isPollStart (fun s => rfl) e]
      simp [isPollStart]
    have hlog : (if loginRequired e then loginSectionEvs e (getAppUrl e.appUrlVar)
        else ([] : List Ev)).countP isPollStart = 0 := by
      cases h : loginRequired e <;>
        simp [h, countP_loginSection isPollStart (fun s => rfl) e
          (getAppUrl e.appUrlVar) rfl, isPollStart]
    have hg2 : (if e.cookiesGet2Ok then [Ev.cookieFileWrite]
        else ([] : List Ev)).countP isPollStart = 0 := by
      cases h : e.cookiesGet2Ok <;> simp [h, isPollStart]
    simp [preludeEvs, List.countP_append, List.countP_cons, hcl, hlog, hg2,
      isPollStart]
  · have hmap := countP_pollIters isWrite (fun s => rfl) (getAppUrl e.appUrlVar)
      rfl (refresh_page_and_wait e.pollEnv 5 120).2
    have hwait : (if (refresh_page_and_wait e.pollEnv 5 120).1
        then [Ev.browser "wait_20s"] else ([] : List Ev)).countP isWrite = 0 := by
      cases h : (refresh_page_and_wait e.pollEnv 5 120).1 <;> simp [h, isWrite]
    simp [List.countP_append, hmap, hwait,
      countP_cleanup_zero isWrite (fun s => rfl) (fun s => rfl) rfl e]

/-- C7 (amended): exact write/read accounting.  The cookie file is written at
most twice: once after the interactive login flow when it was entered and its
checkpoint passed (and `context.cookies()` succeeded), and once after the final
verification passed; every write precedes the entry into the readiness poll;
the file is read at most once, at startup, exactly when it exists (and the
browser context was created). -/
theorem cookie_write_characterization :
    ∀ e : Env,
      (runTrace e).countP isWrite =
        (if credsBad e.googlePw then 0 else
          (if reachedInteraction e && loginRequired e &&
              loginCheckpoint e.urlAfterLogin && e.cookiesGet1Ok then 1 else 0) +
          (if reachedInteraction e && finalCheckpoint e.urlFinal &&
              e.cookiesGet2Ok then 1 else 0)) ∧
      (runTrace e).countP isWrite ≤ 2 ∧
      (runTrace e).countP isRead =
        (if credsBad e.googlePw then 0 else
          if e.launchOk && e.newContextOk && e.cookieFileExists then 1 else 0) ∧
      (runTrace e).countP isRead ≤ 1 ∧
      ((runTrace e).countP isPollStart = 0 ∨
        ∃ l1 l2, runTrace e = l1 ++ Ev.pollStart :: l2 ∧
          l1.countP isPollStart = 0 ∧ l2.countP isWrite = 0) := by
  intro e
  have hw : (runTrace e).countP isWrite =
      (if credsBad e.googlePw then 0 else
        (if reachedInteraction e && loginRequired e &&
            loginCheckpoint e.urlAfterLogin && e.cookiesGet1Ok then 1 else 0) +
        (if reachedInteraction e && finalCheckpoint e.urlFinal &&
            e.cookiesGet2Ok then 1 else 0)) := by
    rw [countP_runTrace_split isWrite rfl (fun s => rfl) (fun s => rfl) rfl e,
      countP_prelude, countP_runBody isWrite (fun s => rfl) e rfl]
    simp [isWrite]
  have hr : (runTrace e).countP isRead =
      (if credsBad e.googlePw then 0 else
        if e.launchOk && e.newContextOk && e.cookieFileExists then 1 else 0) := by
    rw [countP_runTrace_split isRead rfl (fun s => rfl) (fun s => rfl) rfl e,
      countP_prelude, countP_runBody isRead (fun s => rfl) e rfl]
    simp [isRead]
  refine ⟨hw, ?_, hr, ?_, ?_⟩
  · rw [hw]
    cases hcb : credsBad e.googlePw
    · simp only [Bool.false_eq_true, if_false]
      split <;> split <;> omega
    · simp
  · rw [hr]
    cases hcb : credsBad e.googlePw
    · simp only [Bool.false_eq_true, if_false]
      split <;> omega
    · simp
  · by_cases hcb : credsBad e.googlePw = true
    · left
      rw [countP_runTrace_split isPollStart rfl (fun s => rfl) (fun s => rfl) rfl e]
      simp [hcb, preludeEvs, isPollStart]
    · rw [Bool.not_eq_true] at hcb
      by_cases hrf : reachedInteraction e = true ∧ finalCheckpoint e.urlFinal = true
      · exact Or.inr (runTrace_poll_split e hcb hrf.1 hrf.2)
      · left
        rw [countP_runTrace_split isPollStart rfl (fun s => rfl) (fun s => rfl) rfl e,
          countP_prelude, countP_runBody isPollStart (fun s => rfl) e rfl]
        have hfalse : (reachedInteraction e && finalCheckpoint e.urlFinal) = false := by
          cases hre2 : reachedInteraction e
          · simp
          · cases hfc2 : finalCheckpoint e.urlFinal
            · simp
            · exact absurd ⟨hre2, hfc2⟩ hrf
        simp [isPollStart, hcb, hfalse]

/-- C7 counterexample: a fully successful run that authenticates through the
persisted cookies writes the cookie file exactly once, and that write happens
before the readiness poll starts — refuting "written twice on a successful
run, the second time after the readiness check". -/
theorem cookie_write_counterexample :
    (runTrace baseEnv).countP isWrite = 1 ∧
    finalCheckpoint baseEnv.urlFinal = true ∧
    (refresh_page_and_wait baseEnv.pollEnv 5 120).1 = true ∧
    Ev.pollStart ∈ runTrace baseEnv ∧
    ((runTrace baseEnv).dropWhile (fun ev => !isPollStart ev)).countP isWrite
      = 0 := by
  refine ⟨by decide, by decide, by decide, by decide, by decide⟩

/-- Witness for C1 at a concrete oracle: the budget facts at `(5, 120)` and
the zero-budget scenario. -/
theorem poll_budgets_and_result_witness :
    ((refresh_page_and_wait (fun _ => iterAllFound) 5 120).2.length ≤ 5 ∧
      (refresh_page_and_wait (fun _ => iterAllFound) 5 120).2.countP
        (fun r => r.reloaded) ≤ 5 ∧
      (∀ r ∈ (refresh_page_and_wait (fun _ => iterAllFound) 5 120).2,
        r.elapsedAtStart < 120 * 1000) ∧
      ((refresh_page_and_wait (fun _ => iterAllFound) 5 120).1 = true ↔
        ∃ r ∈ (refresh_page_and_wait (fun _ => iterAllFound) 5 120).2,
          r.wbAtEnd = true ∧ r.ssAtEnd = true)) ∧
    refresh_page_and_wait (fun _ => iterAllFound) 1 0 = (false, []) :=
  ⟨poll_budgets_and_result.1 (fun _ => iterAllFound) 5 120,
    poll_budgets_and_result.2 (fun _ => iterAllFound)⟩

/-- Witness for C3 at a concrete iteration oracle with the web flag set. -/
theorem starting_server_only_when_located_witness :
    marker2Step iterAllFound true false =
      (false || (true && !false && iterAllFound.chainRootOk &&
        (nestedPathStep iterAllFound || fallbackFound iterAllFound))) ∧
    nestedPathStep iterAllFound =
      (iterAllFound.innerFrame.isFound && iterAllFound.webTitleFrame.isFound &&
        iterAllFound.previewFrame.isFound && iterAllFound.nestedHeading.isFound) ∧
    (marker2Step iterAllFound true false = true →
      nestedPathStep iterAllFound = true ∨ fallbackFound iterAllFound = true) ∧
    (iterAllFound.chainRootOk = true → nestedPathStep iterAllFound = false →
      marker2Step iterAllFound true false = fallbackFound iterAllFound) :=
  starting_server_only_when_located iterAllFound true false

/-- Witness for C4 at a concrete oracle. -/
theorem poll_flags_monotone_no_reclick_witness :
    (∀ r ∈ (refresh_page_and_wait (fun _ => iterAllFound) 5 120).2,
      (r.wbAtStart = true → r.wbAtEnd = true) ∧
      (r.ssAtStart = true → r.ssAtEnd = true) ∧
      (r.marker2Attempted = true → r.wbAtEnd = true) ∧
      (r.wbAtStart = true → r.clickAttempted = false)) ∧
    List.Chain' (fun p q => p.wbAtEnd = q.wbAtStart ∧ p.ssAtEnd = q.ssAtStart)
      (refresh_page_and_wait (fun _ => iterAllFound) 5 120).2 ∧
    (∀ r0, (refresh_page_and_wait (fun _ => iterAllFound) 5 120).2.head? = some r0 →
      r0.wbAtStart = false ∧ r0.ssAtStart = false) :=
  poll_flags_monotone_no_reclick (fun _ => iterAllFound) 5 120
